import Mathlib

/-!
Verification of the Dialog configuration and invocation bridge of the
camunda-modeler repository (`Dialog` in the tasks sources, lines 147-386:
`getDialogOptions`, `setDefaultPath`, `showDialog`).

The JavaScript methods are shallowly embedded as pure Lean functions over an
explicit `DialogState`.  The platform dialog primitives (`showMessageBox`,
`showOpenDialog`, `showSaveDialog`) are modelled by an oracle `Platform`
holding the result each primitive would return, and `showDialog` additionally
returns the list of native calls it performed, so that call-ordering
properties (no native call on a validation failure, `noLink` on every call)
are statable.

JavaScript failure modes are made explicit: `ensureOptions` failures become
`JsError.missingOption` (the MissingOptionError of the specification), a
dialog-table lookup miss becomes `JsError.unknownRequestType` (the
UnknownRequestTypeError of the specification), and any other undefined
dereference (for example `path.dirname(undefined)` on an empty filename
array) becomes `JsError.typeError`, with `Option` used where a JavaScript
value may be `undefined`.
-/

namespace DialogBridge

/-- A button of a message-box dialog: a stable identifier and a display
label, as in the `buttons` entries of the dialogs table. -/
structure DialogButton where
  id : String
  label : String
deriving DecidableEq, Repr

/-- A file filter entry, as produced by `filterExtensions`. -/
structure FileFilter where
  name : String
  extensions : List String
deriving DecidableEq, Repr

/-- Modelled from the spec: the helper `util/filter-extensions` is not among
the sources; the specification only fixes which filter keys appear (the
given file type, the supported diagram extensions) and that the key `all`
denotes the "all files" fallback, so each key is mapped to one filter
carrying that key. -/
def filterFor (key : String) : FileFilter :=
  if key = "all" then { name := "all files", extensions := ["*"] }
  else { name := key, extensions := [key] }

/-- Modelled from the spec: `filterExtensions` maps each requested key to
its filter, preserving order. -/
def filterExtensions (keys : List String) : List FileFilter :=
  keys.map filterFor

/-- The error kinds the bridge can fail with, named as in the specification;
`typeError` stands for any other JavaScript TypeError (an undefined
dereference). -/
inductive JsError where
  | missingOption (key : String)
  | unknownRequestType (t : String)
  | typeError
deriving DecidableEq, Repr

/-- The options mapping handed to a dialog request; every field the dialogs
table ever reads, each `Option` because a caller may omit it. -/
structure ReqOpts where
  name : Option String := none
  fileType : Option String := none
  errorDetails : Option String := none
deriving DecidableEq, Repr

/-- Modelled from the spec: `util/ensure-opts` is not among the sources; the
specification says a request fails with MissingOptionError when a required
field is absent, so requiring one option either yields its value or fails
with `missingOption` naming the field. -/
def requireOpt {α : Type} (o : Option α) (key : String) : Except JsError α :=
  match o with
  | some v => Except.ok v
  | none => Except.error (JsError.missingOption key)

/-- The configuration store, of which this component reads and writes the
single key `defaultPath` (`config.get('defaultPath', _)`,
`config.set('defaultPath', _)`). -/
structure Config where
  defaultPath : Option String := none
deriving DecidableEq, Repr

/-- The observable state of a `Dialog` instance: the injected configuration
store and user desktop path, and the `defaultPath` instance field written by
`setDefaultPath` (absent on a fresh instance). -/
structure DialogState where
  config : Config
  userDesktopPath : String
  defaultPathCache : Option String := none
deriving DecidableEq, Repr

/-- The resolved dialog description built by the dialogs table: every field
any entry of the table sets, `Option` where an entry may leave it unset. -/
structure DialogOptionsRecord where
  title : String := ""
  message : Option String := none
  detail : Option String := none
  severity : Option String := none
  buttons : Option (List DialogButton) := none
  defaultPath : Option String := none
  properties : Option (List String) := none
  filters : Option (List FileFilter) := none
deriving DecidableEq, Repr

/-- The dialogs table of `getDialogOptions`, which captures the already-read
`defaultPath` value and dispatches on the request type, one branch per key
of the table; an unknown key is a lookup miss (`unknownRequestType`). -/
def dialogsTable (defaultPath : String) (type : String) (opts : ReqOpts) :
    Except JsError DialogOptionsRecord :=
  if type = "contentChanged" then
    Except.ok
      { title := "File changed"
        message := some "The file has been changed externally.\nWould you like to reload it?"
        severity := some "question"
        buttons := some [⟨"ok", "Reload"⟩, ⟨"cancel", "Cancel"⟩] }
  else if type = "open" then
    Except.ok
      { title := "Open diagram"
        defaultPath := some defaultPath
        properties := some ["openFile", "multiSelections"]
        filters := some (filterExtensions ["supported", "bpmn", "dmn", "cmmn", "all"]) }
  else if type = "save" then
    match requireOpt opts.name "name" with
    | Except.error e => Except.error e
    | Except.ok name =>
      match requireOpt opts.fileType "fileType" with
      | Except.error e => Except.error e
      | Except.ok fileType =>
        Except.ok
          { title := "Save " ++ name ++ " as.."
            defaultPath := some (defaultPath ++ "/" ++ name)
            filters := some (filterExtensions [fileType, "all"]) }
  else if type = "close" then
    match requireOpt opts.name "name" with
    | Except.error e => Except.error e
    | Except.ok name =>
      Except.ok
        { title := "Close diagram"
          message := some ("Save changes to " ++ name ++ " before closing?")
          severity := some "question"
          buttons := some [⟨"cancel", "Cancel"⟩, ⟨"save", "Save"⟩, ⟨"discard", "Don\x27t Save"⟩] }
  else if type = "importError" then
    match requireOpt opts.name "name" with
    | Except.error e => Except.error e
    | Except.ok name =>
      match requireOpt opts.errorDetails "errorDetails" with
      | Except.error e => Except.error e
      | Except.ok errorDetails =>
        Except.ok
          { severity := some "error"
            title := "Importing Error"
            buttons := some [⟨"cancel", "Close"⟩, ⟨"ask-forum", "Ask in Forum"⟩]
            message := some "Ooops, we could not display this diagram!"
            detail := some (String.intercalate "\n"
              [errorDetails, "",
               "Do you believe \"" ++ name ++ "\" is valid BPMN or DMN diagram?", "",
               "Post this error with your diagram in our forum for help."]) }
  else if type = "unrecognizedFile" then
    match requireOpt opts.name "name" with
    | Except.error e => Except.error e
    | Except.ok name =>
      Except.ok
        { severity := some "warning"
          title := "Unrecognized file format"
          buttons := some [⟨"cancel", "Close"⟩]
          message := some ("The file \"" ++ name ++ "\" is not a BPMN or DMN file.") }
  else if type = "existingFile" then
    match requireOpt opts.name "name" with
    | Except.error e => Except.error e
    | Except.ok name =>
      Except.ok
        { severity := some "warning"
          title := "Existing file"
          buttons := some [⟨"cancel", "Cancel"⟩, ⟨"no-overwrite", "No"⟩, ⟨"overwrite", "Overwrite"⟩]
          message := some ("The file \"" ++ name ++ "\" already exists. Do you want to overwrite it?") }
  else if type = "reimportWarning" then
    Except.ok
      { severity := some "warning"
        title := "Import warning"
        buttons := some [⟨"cancel", "Cancel"⟩, ⟨"switch", "Switch"⟩, ⟨"discard", "Discard changes"⟩]
        message := some (String.intercalate "\n"
          ["Your diagram\x27s undo history will be lost due to xml changes.", "",
           "Do you want to proceed?"]) }
  else if type = "namespace" then
    Except.ok
      { severity := some "warning"
        title := "Deprecated <activiti> namespace detected"
        buttons := some [⟨"cancel", "Cancel"⟩, ⟨"no", "No"⟩, ⟨"yes", "Yes"⟩]
        message := some "Would you like to convert your diagram to the <camunda> namespace?"
        detail := some (String.intercalate "\n"
          ["This will allow you to maintain execution related properties.", "",
           "<camunda> namespace support works from Camunda BPM versions 7.4.0, 7.3.3, 7.2.6 onwards."]) }
  else if type = "savingDenied" then
    Except.ok
      { severity := some "warning"
        title := "Cannot save file"
        buttons := some [⟨"cancel", "Cancel"⟩, ⟨"save-as", "Save File as.."⟩]
        message := some (String.intercalate "\n"
          ["We cannot save or overwrite the current file.",
           "Do you want to save the file as.. ?"]) }
  else
    Except.error (JsError.unknownRequestType type)

/-- `Dialog.prototype.getDialogOptions`: reads
`config.get('defaultPath', userDesktopPath)` and dispatches through the
dialogs table.  The only instance write of the method, the assignment of the
freshly built table to `this._dialogs`, is a derived cache that no other
code ever reads, so it is not part of the observable state and the method is
embedded as a pure function. -/
def getDialogOptions (st : DialogState) (type : String) (opts : ReqOpts) :
    Except JsError DialogOptionsRecord :=
  dialogsTable (st.config.defaultPath.getD st.userDesktopPath) type opts

/-- Node posix `path.dirname`, as used by `setDefaultPath`: walking from the
end of the path but never looking at position 0, skip the run of trailing
slashes, then the run of non-slash characters (the basename); the slash
found there, if any, ends the directory prefix. -/
def dirname (p : String) : String :=
  match p.data with
  | [] => "."
  | c0 :: rest =>
    let hasRoot := c0 = '/'
    let rev2 := ((rest.reverse.dropWhile (fun c => c = '/')).dropWhile (fun c => c ≠ '/'))
    match rev2 with
    | [] => if hasRoot then "/" else "."
    | _ :: _ =>
      if hasRoot ∧ rev2.length = 1 then "//"
      else String.mk ((c0 :: rest).take rev2.length)

/-- The argument of `setDefaultPath`: a single filename (save result) or an
array of filenames (open result). -/
inductive Filenames where
  | single (s : String)
  | multiple (l : List String)
deriving DecidableEq, Repr

/-- `Dialog.prototype.setDefaultPath`: take the first element of an array
argument (on an empty array this is `undefined` and `path.dirname` then
throws, modelled as `none`); if the instance field `this.defaultPath` is
truthy (set and non-empty) and equal to that filename, return it and change
nothing; otherwise write the dirname to the configuration store and to the
instance field, returning `undefined`.  The result pairs the new state with
the returned value. -/
def setDefaultPath (st : DialogState) (filenames : Filenames) :
    Option (DialogState × Option String) :=
  let defaultPath? : Option String :=
    match filenames with
    | Filenames.multiple l => l.head?
    | Filenames.single s => some s
  match defaultPath? with
  | none => none
  | some defaultPath =>
    if st.defaultPathCache.getD "" ≠ "" ∧ st.defaultPathCache = some defaultPath then
      some (st, st.defaultPathCache)
    else
      let d := dirname defaultPath
      some ({ st with config := { st.config with defaultPath := some d },
                      defaultPathCache := some d }, none)

/-- The platform dialog subsystem, as an oracle of the results its three
primitives would return for the current invocation: a button index for
`showMessageBox`, the selected paths or `undefined` for `showOpenDialog`,
the chosen path or `undefined` for `showSaveDialog`. -/
structure Platform where
  messageBoxResult : Nat
  openResult : Option (List String) := none
  saveResult : Option String := none
deriving DecidableEq, Repr

/-- The dialog options object at the moment it is handed to a native
primitive: `noLink` has been set and the `buttons` entries have been
replaced by their labels. -/
structure PlatformOptions where
  title : String := ""
  message : Option String := none
  detail : Option String := none
  severity : Option String := none
  buttons : Option (List String) := none
  defaultPath : Option String := none
  properties : Option (List String) := none
  filters : Option (List FileFilter) := none
  noLink : Bool := false
deriving DecidableEq, Repr

/-- The mutations `showDialog` performs on the options object before any
native call: `dialogOptions.noLink = true`, and, when buttons are present,
`dialogOptions.buttons = map(buttons, b => b.label)`. -/
def toPlatformOptions (d : DialogOptionsRecord) : PlatformOptions :=
  { title := d.title
    message := d.message
    detail := d.detail
    severity := d.severity
    buttons := d.buttons.map (fun bs => bs.map DialogButton.label)
    defaultPath := d.defaultPath
    properties := d.properties
    filters := d.filters
    noLink := true }

/-- A call to a native dialog primitive, with the options object it was
given. -/
inductive NativeCall where
  | showMessageBox (opts : PlatformOptions)
  | showOpenDialog (opts : PlatformOptions)
  | showSaveDialog (opts : PlatformOptions)
deriving DecidableEq, Repr

/-- The options object a native call received. -/
def NativeCall.options : NativeCall → PlatformOptions
  | NativeCall.showMessageBox o => o
  | NativeCall.showOpenDialog o => o
  | NativeCall.showSaveDialog o => o

/-- The value `showDialog` returns: the identifier of the chosen button for
a message box, the selected paths (or `undefined`) for open, the chosen
path (or `undefined`) for save. -/
inductive ShowResult where
  | buttonId (id : String)
  | openPaths (paths : Option (List String))
  | savePath (path : Option String)
deriving DecidableEq, Repr

/-- `Dialog.prototype.showDialog`: build the options via
`getDialogOptions` (so an invalid request fails here, before any native
call), set `noLink`, map buttons to labels, dispatch on the type to the
matching primitive, map a message-box index back to the button identifier
(an out-of-range index dereferences `undefined`), and on a truthy open/save
result update the default path.  Returns the outcome together with the list
of native calls performed. -/
def showDialog (st : DialogState) (p : Platform) (type : String) (opts : ReqOpts) :
    Except JsError (DialogState × ShowResult) × List NativeCall :=
  match getDialogOptions st type opts with
  | Except.error e => (Except.error e, [])
  | Except.ok dialogOptions =>
    let buttons := dialogOptions.buttons
    let platformOptions := toPlatformOptions dialogOptions
    if type = "open" then
      let calls := [NativeCall.showOpenDialog platformOptions]
      match p.openResult with
      | none => (Except.ok (st, ShowResult.openPaths none), calls)
      | some paths =>
        match setDefaultPath st (Filenames.multiple paths) with
        | none => (Except.error JsError.typeError, calls)
        | some (st', _) => (Except.ok (st', ShowResult.openPaths (some paths)), calls)
    else if type = "save" then
      let calls := [NativeCall.showSaveDialog platformOptions]
      match p.saveResult with
      | none => (Except.ok (st, ShowResult.savePath none), calls)
      | some path =>
        if path = "" then
          (Except.ok (st, ShowResult.savePath (some "")), calls)
        else
          match setDefaultPath st (Filenames.single path) with
          | none => (Except.error JsError.typeError, calls)
          | some (st', _) => (Except.ok (st', ShowResult.savePath (some path)), calls)
    else
      let calls := [NativeCall.showMessageBox platformOptions]
      match buttons with
      | none => (Except.error JsError.typeError, calls)
      | some bs =>
        match bs[p.messageBoxResult]? with
        | none => (Except.error JsError.typeError, calls)
        | some b => (Except.ok (st, ShowResult.buttonId b.id), calls)

/-- The enumerated symbolic request kinds: exactly the keys of the dialogs
table. -/
def supportedKinds : List String :=
  ["contentChanged", "open", "save", "close", "importError", "unrecognizedFile",
   "existingFile", "reimportWarning", "namespace", "savingDenied"]

/-- The message-box-style kinds: every supported kind other than the two
file pickers `open` and `save`. -/
def messageBoxKinds : List String :=
  ["contentChanged", "close", "importError", "unrecognizedFile",
   "existingFile", "reimportWarning", "namespace", "savingDenied"]

/-- The documented fixed button-identifier sequence of each kind (`none`
for the file pickers, which have no buttons). -/
def expectedButtonIds (t : String) : Option (List String) :=
  if t = "contentChanged" then some ["ok", "cancel"]
  else if t = "close" then some ["cancel", "save", "discard"]
  else if t = "importError" then some ["cancel", "ask-forum"]
  else if t = "unrecognizedFile" then some ["cancel"]
  else if t = "existingFile" then some ["cancel", "no-overwrite", "overwrite"]
  else if t = "reimportWarning" then some ["cancel", "switch", "discard"]
  else if t = "namespace" then some ["cancel", "no", "yes"]
  else if t = "savingDenied" then some ["cancel", "save-as"]
  else none

/-- The option fields each request kind requires (the `ensureOptions` calls
of the dialogs table). -/
def requiredFields (t : String) : List String :=
  if t = "save" then ["name", "fileType"]
  else if t = "close" then ["name"]
  else if t = "importError" then ["name", "errorDetails"]
  else if t = "unrecognizedFile" then ["name"]
  else if t = "existingFile" then ["name"]
  else []

/-- Whether an options mapping supplies the named field. -/
def hasOpt (opts : ReqOpts) (key : String) : Bool :=
  if key = "name" then opts.name.isSome
  else if key = "fileType" then opts.fileType.isSome
  else if key = "errorDetails" then opts.errorDetails.isSome
  else false

end DialogBridge

namespace DialogBridge

/-- Claim C5: for every request type outside the enumerated kinds, the
dialogs-table lookup fails with UnknownRequestTypeError, and `showDialog`
propagates that failure having performed no native dialog call. -/
theorem claim_C5_unknown_kind (st : DialogState) (p : Platform)
    (t : String) (opts : ReqOpts) (h : t ∉ supportedKinds) :
    getDialogOptions st t opts = Except.error (JsError.unknownRequestType t) ∧
    showDialog st p t opts = (Except.error (JsError.unknownRequestType t), []) := by
  simp only [supportedKinds, List.mem_cons, List.not_mem_nil, or_false, not_or] at h
  obtain ⟨h1, h2, h3, h4, h5, h6, h7, h8, h9, h10⟩ := h
  have hg : getDialogOptions st t opts = Except.error (JsError.unknownRequestType t) := by
    simp [getDialogOptions, dialogsTable, h1, h2, h3, h4, h5, h6, h7, h8, h9, h10]
  refine ⟨hg, ?_⟩
  simp [showDialog, hg]

/-- Claim C5 witness: `invoke('unknown-kind', {})` fails with
UnknownRequestTypeError and performs no native call. -/
theorem claim_C5_witness :
    getDialogOptions ⟨⟨none⟩, "/desktop", none⟩ "unknown-kind" ⟨none, none, none⟩
      = Except.error (JsError.unknownRequestType "unknown-kind") ∧
    showDialog ⟨⟨none⟩, "/desktop", none⟩ ⟨0, none, none⟩ "unknown-kind" ⟨none, none, none⟩
      = (Except.error (JsError.unknownRequestType "unknown-kind"), []) :=
  claim_C5_unknown_kind ⟨⟨none⟩, "/desktop", none⟩ ⟨0, none, none⟩
    "unknown-kind" ⟨none, none, none⟩ (by decide)

/-- Claim C6: `getDialogOptions` has no side effects in the embedding and
its result depends on the instance state only through the single read
`config.get('defaultPath', userDesktopPath)`: any two states agreeing on
that read value (whatever their `defaultPath` instance caches) yield equal
dialog specifications, so repeated calls with the same inputs and store
contents are equal. -/
theorem claim_C6_pure (st₁ st₂ : DialogState) (t : String) (opts : ReqOpts)
    (h : st₁.config.defaultPath.getD st₁.userDesktopPath
       = st₂.config.defaultPath.getD st₂.userDesktopPath) :
    getDialogOptions st₁ t opts = getDialogOptions st₂ t opts := by
  unfold getDialogOptions
  rw [h]

/-- Claim C6 witness: two instances with the same stored `defaultPath` but
different desktop paths and different instance caches build the same spec. -/
theorem claim_C6_witness :
    getDialogOptions ⟨⟨some "/x"⟩, "/d", none⟩ "open" ⟨none, none, none⟩
      = getDialogOptions ⟨⟨some "/x"⟩, "/e", some "/y"⟩ "open" ⟨none, none, none⟩ :=
  claim_C6_pure ⟨⟨some "/x"⟩, "/d", none⟩ ⟨⟨some "/x"⟩, "/e", some "/y"⟩
    "open" ⟨none, none, none⟩ rfl

/-- Claim C1: for every supported request kind, building the spec with
complete options succeeds and yields exactly the documented fixed button
identifiers for that kind, in order (for `close`:
`["cancel", "save", "discard"]`); every message-box-style kind has a
non-empty button sequence, and the file pickers have none. -/
theorem claim_C1_button_ids (st : DialogState) (t n ft ed : String)
    (h : t ∈ supportedKinds) :
    ∃ spec, getDialogOptions st t ⟨some n, some ft, some ed⟩ = Except.ok spec
      ∧ spec.buttons.map (fun bs => bs.map DialogButton.id) = expectedButtonIds t
      ∧ (t ∈ messageBoxKinds → ∃ ids, expectedButtonIds t = some ids ∧ ids ≠ []) := by
  simp only [supportedKinds, List.mem_cons, List.not_mem_nil, or_false] at h
  rcases h with rfl | rfl | rfl | rfl | rfl | rfl | rfl | rfl | rfl | rfl <;>
    refine ⟨_, rfl, ?_, fun hm => ?_⟩ <;>
    first
      | rfl
      | exact absurd hm (by decide)
      | exact ⟨_, rfl, by decide⟩

/-- Claim C1 witness: `buildSpec('close', { name: 'diagram.bpmn' })` (with
the other fields also supplied) succeeds with button identifiers
`["cancel", "save", "discard"]` in that order. -/
theorem claim_C1_witness :
    ∃ spec, getDialogOptions ⟨⟨none⟩, "/desktop", none⟩ "close"
        ⟨some "diagram.bpmn", some "bpmn", some "err"⟩ = Except.ok spec
      ∧ spec.buttons.map (fun bs => bs.map DialogButton.id) = expectedButtonIds "close"
      ∧ ("close" ∈ messageBoxKinds →
          ∃ ids, expectedButtonIds "close" = some ids ∧ ids ≠ []) :=
  claim_C1_button_ids ⟨⟨none⟩, "/desktop", none⟩ "close" "diagram.bpmn" "bpmn" "err"
    (by decide)

/-- Claim C7: a `save` request with `name` and `fileType` supplied calls the
native save-file picker exactly once, with an options object seeded at
`defaultPath + '/' + name`, filtered to the given file type followed by the
"all files" fallback, with `noLink` set; the chosen path (or the cancelled
`undefined` result) is returned as is. -/
theorem claim_C7_save (st : DialogState) (p : Platform) (name fileType : String)
    (ed : Option String) :
    ∃ st', showDialog st p "save" ⟨some name, some fileType, ed⟩ =
      (Except.ok (st', ShowResult.savePath p.saveResult),
       [NativeCall.showSaveDialog
         { title := "Save " ++ name ++ " as.."
           defaultPath := some (st.config.defaultPath.getD st.userDesktopPath ++ "/" ++ name)
           filters := some [filterFor fileType, { name := "all files", extensions := ["*"] }]
           noLink := true }]) := by
  have hfilters : filterExtensions [fileType, "all"]
      = [filterFor fileType, { name := "all files", extensions := ["*"] }] := by
    simp [filterExtensions]
    rfl
  cases hp : p.saveResult with
  | none =>
    refine ⟨st, ?_⟩
    simp [showDialog, getDialogOptions, dialogsTable, requireOpt, toPlatformOptions, hp, hfilters]
  | some path =>
    by_cases hpath : path = ""
    · subst hpath
      refine ⟨st, ?_⟩
      simp [showDialog, getDialogOptions, dialogsTable, requireOpt, toPlatformOptions, hp, hfilters]
    · rcases hset : setDefaultPath st (Filenames.single path) with _ | ⟨st', ret⟩
      · exact absurd hset (by simp [setDefaultPath]; split <;> simp)
      · refine ⟨st', ?_⟩
        simp [showDialog, getDialogOptions, dialogsTable, requireOpt, toPlatformOptions,
          hp, hpath, hset, hfilters]

/-- Claim C8: an `open` request calls the native open-file picker exactly
once, with multi-selection enabled (`openFile`, `multiSelections`), seeded
at the stored default path, filtered to the supported diagram extensions
plus the "all files" fallback, with `noLink` set; under the platform
contract that an open result is `undefined` or a non-empty path array, the
selected paths (or the cancelled result) are returned as is. -/
theorem claim_C8_open (st : DialogState) (p : Platform) (opts : ReqOpts)
    (h : p.openResult ≠ some []) :
    ∃ st', showDialog st p "open" opts =
      (Except.ok (st', ShowResult.openPaths p.openResult),
       [NativeCall.showOpenDialog
         { title := "Open diagram"
           defaultPath := some (st.config.defaultPath.getD st.userDesktopPath)
           properties := some ["openFile", "multiSelections"]
           filters := some [filterFor "supported", filterFor "bpmn", filterFor "dmn",
                            filterFor "cmmn", { name := "all files", extensions := ["*"] }]
           noLink := true }]) := by
  have hfilters : filterExtensions ["supported", "bpmn", "dmn", "cmmn", "all"]
      = [filterFor "supported", filterFor "bpmn", filterFor "dmn", filterFor "cmmn",
         { name := "all files", extensions := ["*"] }] := by
    simp [filterExtensions]
    rfl
  cases hp : p.openResult with
  | none =>
    refine ⟨st, ?_⟩
    simp [showDialog, getDialogOptions, dialogsTable, toPlatformOptions, hp, hfilters]
  | some paths =>
    cases paths with
    | nil => exact absurd hp h
    | cons f rest =>
      rcases hset : setDefaultPath st (Filenames.multiple (f :: rest)) with _ | ⟨st', ret⟩
      · exact absurd hset (by simp [setDefaultPath]; split <;> simp)
      · refine ⟨st', ?_⟩
        simp [showDialog, getDialogOptions, dialogsTable, toPlatformOptions, hp, hset, hfilters]

/-- Claim C8 witness: a concrete open invocation returning one path. -/
theorem claim_C8_witness :
    ∃ st', showDialog ⟨⟨none⟩, "/desktop", none⟩ ⟨0, some ["/a/x.bpmn"], none⟩ "open"
        ⟨none, none, none⟩ =
      (Except.ok (st', ShowResult.openPaths (some ["/a/x.bpmn"])),
       [NativeCall.showOpenDialog
         { title := "Open diagram"
           defaultPath := some "/desktop"
           properties := some ["openFile", "multiSelections"]
           filters := some [filterFor "supported", filterFor "bpmn", filterFor "dmn",
                            filterFor "cmmn", { name := "all files", extensions := ["*"] }]
           noLink := true }]) :=
  claim_C8_open ⟨⟨none⟩, "/desktop", none⟩ ⟨0, some ["/a/x.bpmn"], none⟩
    ⟨none, none, none⟩ (by decide)

/-- Claim C2: whenever an options mapping lacks a field the request kind
requires, building the spec fails with MissingOptionError (naming some
absent required field), and the same request through `showDialog` fails the
same way with no native dialog call performed. -/
theorem claim_C2_missing_option (st : DialogState) (p : Platform) (t : String)
    (opts : ReqOpts) (k : String) (hk : k ∈ requiredFields t)
    (hmiss : hasOpt opts k = false) :
    ∃ kk, getDialogOptions st t opts = Except.error (JsError.missingOption kk)
      ∧ showDialog st p t opts = (Except.error (JsError.missingOption kk), []) := by
  obtain ⟨n, ft, ed⟩ := opts
  unfold requiredFields at hk
  by_cases h1 : t = "save"
  · rw [if_pos h1] at hk
    subst h1
    simp only [List.mem_cons, List.not_mem_nil, or_false] at hk
    rcases hk with rfl | rfl
    · cases n with
      | some v => simp [hasOpt] at hmiss
      | none => exact ⟨"name", rfl, rfl⟩
    · cases n with
      | none => exact ⟨"name", rfl, rfl⟩
      | some nv =>
        cases ft with
        | some fv => simp [hasOpt] at hmiss
        | none => exact ⟨"fileType", rfl, rfl⟩
  rw [if_neg h1] at hk
  by_cases h2 : t = "close"
  · rw [if_pos h2] at hk
    subst h2
    simp only [List.mem_cons, List.not_mem_nil, or_false] at hk
    rcases hk with rfl
    cases n with
    | some v => simp [hasOpt] at hmiss
    | none => exact ⟨"name", rfl, rfl⟩
  rw [if_neg h2] at hk
  by_cases h3 : t = "importError"
  · rw [if_pos h3] at hk
    subst h3
    simp only [List.mem_cons, List.not_mem_nil, or_false] at hk
    rcases hk with rfl | rfl
    · cases n with
      | some v => simp [hasOpt] at hmiss
      | none => exact ⟨"name", rfl, rfl⟩
    · cases n with
      | none => exact ⟨"name", rfl, rfl⟩
      | some nv =>
        cases ed with
        | some ev => simp [hasOpt] at hmiss
        | none => exact ⟨"errorDetails", rfl, rfl⟩
  rw [if_neg h3] at hk
  by_cases h4 : t = "unrecognizedFile"
  · rw [if_pos h4] at hk
    subst h4
    simp only [List.mem_cons, List.not_mem_nil, or_false] at hk
    rcases hk with rfl
    cases n with
    | some v => simp [hasOpt] at hmiss
    | none => exact ⟨"name", rfl, rfl⟩
  rw [if_neg h4] at hk
  by_cases h5 : t = "existingFile"
  · rw [if_pos h5] at hk
    subst h5
    simp only [List.mem_cons, List.not_mem_nil, or_false] at hk
    rcases hk with rfl
    cases n with
    | some v => simp [hasOpt] at hmiss
    | none => exact ⟨"name", rfl, rfl⟩
  rw [if_neg h5] at hk
  simp at hk

/-- Claim C2 witness: `buildSpec('save', { name: 'diagram.bpmn' })` with
`fileType` absent fails with MissingOptionError, and the same request
through `showDialog` performs no native call. -/
theorem claim_C2_witness :
    ∃ kk, getDialogOptions ⟨⟨none⟩, "/desktop", none⟩ "save"
        ⟨some "diagram.bpmn", none, none⟩ = Except.error (JsError.missingOption kk)
      ∧ showDialog ⟨⟨none⟩, "/desktop", none⟩ ⟨0, none, none⟩ "save"
          ⟨some "diagram.bpmn", none, none⟩ = (Except.error (JsError.missingOption kk), []) :=
  claim_C2_missing_option ⟨⟨none⟩, "/desktop", none⟩ ⟨0, none, none⟩ "save"
    ⟨some "diagram.bpmn", none, none⟩ "fileType" (by decide) (by decide)

/-- Claim C4: for every message-box-style kind, `showDialog` performs
exactly one `showMessageBox` call and returns the stable identifier of the
button at the numeric index the platform reported, taken from the ordered
button sequence of the built spec. -/
theorem claim_C4_message_box (st : DialogState) (p : Platform) (t : String)
    (opts : ReqOpts) (spec : DialogOptionsRecord) (bs : List DialogButton)
    (ht : t ∈ messageBoxKinds)
    (hspec : getDialogOptions st t opts = Except.ok spec)
    (hbs : spec.buttons = some bs)
    (hidx : p.messageBoxResult < bs.length) :
    showDialog st p t opts =
      (Except.ok (st, ShowResult.buttonId (bs.get ⟨p.messageBoxResult, hidx⟩).id),
       [NativeCall.showMessageBox (toPlatformOptions spec)]) := by
  have hopen : t ≠ "open" := by rintro rfl; revert ht; decide
  have hsave : t ≠ "save" := by rintro rfl; revert ht; decide
  have hget : bs[p.messageBoxResult]? = some (bs.get ⟨p.messageBoxResult, hidx⟩) := by
    rw [List.getElem?_eq_getElem hidx, List.get_eq_getElem]
  simp [showDialog, hspec, hopen, hsave, hbs, hget, toPlatformOptions]

/-- Claim C4 witness: a `close` request reported as button index 1 resolves
to the ButtonChoice `"save"`. -/
theorem claim_C4_witness :
    (showDialog ⟨⟨none⟩, "/desktop", none⟩ ⟨1, none, none⟩ "close"
        ⟨some "diagram.bpmn", none, none⟩).1
      = Except.ok (⟨⟨none⟩, "/desktop", none⟩, ShowResult.buttonId "save") := by
  have h := claim_C4_message_box ⟨⟨none⟩, "/desktop", none⟩ ⟨1, none, none⟩ "close"
    ⟨some "diagram.bpmn", none, none⟩ _ _ (by decide) rfl rfl (by decide)
  rw [h]
  rfl

/-- Claim C9: every options object handed to a native dialog primitive by
`showDialog` — the open and save pickers included, on every platform — has
`noLink = true`. -/
theorem claim_C9_noLink (st : DialogState) (p : Platform) (t : String)
    (opts : ReqOpts) (c : NativeCall) (hc : c ∈ (showDialog st p t opts).2) :
    c.options.noLink = true := by
  cases hg : getDialogOptions st t opts with
  | error e => simp [showDialog, hg] at hc
  | ok d =>
    by_cases hopen : t = "open"
    · subst hopen
      rcases hores : p.openResult with _ | paths
      · simp [showDialog, hg, hores] at hc
        subst hc; rfl
      · rcases hset : setDefaultPath st (Filenames.multiple paths) with _ | ⟨st', ret⟩
        · simp [showDialog, hg, hores, hset] at hc
          subst hc; rfl
        · simp [showDialog, hg, hores, hset] at hc
          subst hc; rfl
    · by_cases hsave : t = "save"
      · subst hsave
        rcases hsres : p.saveResult with _ | path
        · simp [showDialog, hg, hopen, hsres] at hc
          subst hc; rfl
        · by_cases hpath : path = ""
          · subst hpath
            simp [showDialog, hg, hopen, hsres] at hc
            subst hc; rfl
          · rcases hset : setDefaultPath st (Filenames.single path) with _ | ⟨st', ret⟩
            · simp [showDialog, hg, hopen, hsres, hpath, hset] at hc
              subst hc; rfl
            · simp [showDialog, hg, hopen, hsres, hpath, hset] at hc
              subst hc; rfl
      · rcases hbs : d.buttons with _ | bs
        · simp [showDialog, hg, hopen, hsave, hbs] at hc
          subst hc; rfl
        · rcases hget : bs[p.messageBoxResult]? with _ | b
          · simp [showDialog, hg, hopen, hsave, hbs, hget] at hc
            subst hc; rfl
          · simp [showDialog, hg, hopen, hsave, hbs, hget] at hc
            subst hc; rfl

/-- Claim C9 witness: the single native call of a concrete `save`
invocation carries `noLink = true`. -/
theorem claim_C9_witness :
    (NativeCall.showSaveDialog
      { title := "Save foo.bpmn as.."
        defaultPath := some "/desktop/foo.bpmn"
        filters := some [filterFor "bpmn", { name := "all files", extensions := ["*"] }]
        noLink := true }).options.noLink = true :=
  claim_C9_noLink ⟨⟨none⟩, "/desktop", none⟩ ⟨0, none, some "/home/user/foo.bpmn"⟩ "save"
    ⟨some "foo.bpmn", some "bpmn", none⟩ _ (by decide)

/-- An array argument to `setDefaultPath` is replaced by its first element
before anything else happens, so the remaining elements are irrelevant. -/
theorem setDefaultPath_multiple_cons (st : DialogState) (f : String) (rest : List String) :
    setDefaultPath st (Filenames.multiple (f :: rest)) = setDefaultPath st (Filenames.single f) :=
  rfl

/-- When the instance cache does not short-circuit, `setDefaultPath` writes
the dirname of the filename to the store and the cache and returns
`undefined`. -/
theorem setDefaultPath_write (st : DialogState) (path : String)
    (h : ¬(st.defaultPathCache.getD "" ≠ "" ∧ st.defaultPathCache = some path)) :
    setDefaultPath st (Filenames.single path)
      = some ({ st with config := { st.config with defaultPath := some (dirname path) },
                        defaultPathCache := some (dirname path) }, none) := by
  simp only [setDefaultPath]
  rw [if_neg h]

/-- When the truthy instance cache equals the filename, `setDefaultPath`
returns the cache and changes nothing. -/
theorem setDefaultPath_skip (st : DialogState) (path : String)
    (h : st.defaultPathCache.getD "" ≠ "" ∧ st.defaultPathCache = some path) :
    setDefaultPath st (Filenames.single path) = some (st, st.defaultPathCache) := by
  simp only [setDefaultPath]
  rw [if_pos h]

/-- Claim C3 (amended): `showDialog` leaves the state unchanged for every
message-box kind and for every cancelled (falsy) open or save result; on a
truthy open or save result it writes the dirname of the chosen path (the
first path, for open) to the store and the instance cache — except that
when the truthy instance cache equals the chosen path the write is skipped
and the state is unchanged. -/
theorem claim_C3_defaultPath (st : DialogState) (p : Platform) (t : String) (opts : ReqOpts) :
    (t ≠ "open" → t ≠ "save" → ∀ st' r calls,
        showDialog st p t opts = (Except.ok (st', r), calls) → st' = st)
    ∧ (p.saveResult = none → ∀ st' r calls,
        showDialog st p "save" opts = (Except.ok (st', r), calls) → st' = st)
    ∧ (p.saveResult = some "" → ∀ st' r calls,
        showDialog st p "save" opts = (Except.ok (st', r), calls) → st' = st)
    ∧ (p.openResult = none → ∀ st' r calls,
        showDialog st p "open" opts = (Except.ok (st', r), calls) → st' = st)
    ∧ (∀ path, p.saveResult = some path → path ≠ "" →
        ¬(st.defaultPathCache.getD "" ≠ "" ∧ st.defaultPathCache = some path) →
        ∀ st' r calls, showDialog st p "save" opts = (Except.ok (st', r), calls) →
          st' = { st with config := { st.config with defaultPath := some (dirname path) },
                          defaultPathCache := some (dirname path) })
    ∧ (∀ path, p.saveResult = some path →
        (st.defaultPathCache.getD "" ≠ "" ∧ st.defaultPathCache = some path) →
        ∀ st' r calls, showDialog st p "save" opts = (Except.ok (st', r), calls) → st' = st)
    ∧ (∀ f rest, p.openResult = some (f :: rest) →
        ¬(st.defaultPathCache.getD "" ≠ "" ∧ st.defaultPathCache = some f) →
        ∀ st' r calls, showDialog st p "open" opts = (Except.ok (st', r), calls) →
          st' = { st with config := { st.config with defaultPath := some (dirname f) },
                          defaultPathCache := some (dirname f) })
    ∧ (∀ f rest, p.openResult = some (f :: rest) →
        (st.defaultPathCache.getD "" ≠ "" ∧ st.defaultPathCache = some f) →
        ∀ st' r calls, showDialog st p "open" opts = (Except.ok (st', r), calls) → st' = st) := by
  refine ⟨?_, ?_, ?_, ?_, ?_, ?_, ?_, ?_⟩
  · intro h1 h2 st' r calls heq
    cases hg : getDialogOptions st t opts with
    | error e => simp [showDialog, hg] at heq
    | ok d =>
      rcases hbs : d.buttons with _ | bs
      · simp [showDialog, hg, h1, h2, hbs] at heq
      · rcases hget : bs[p.messageBoxResult]? with _ | b
        · simp [showDialog, hg, h1, h2, hbs, hget] at heq
        · simp [showDialog, hg, h1, h2, hbs, hget] at heq
          exact heq.1.1.symm
  · intro hres st' r calls heq
    cases hg : getDialogOptions st "save" opts with
    | error e => simp [showDialog, hg] at heq
    | ok d =>
      simp [showDialog, hg, hres] at heq
      exact heq.1.1.symm
  · intro hres st' r calls heq
    cases hg : getDialogOptions st "save" opts with
    | error e => simp [showDialog, hg] at heq
    | ok d =>
      simp [showDialog, hg, hres] at heq
      exact heq.1.1.symm
  · intro hres st' r calls heq
    cases hg : getDialogOptions st "open" opts with
    | error e => simp [showDialog, hg] at heq
    | ok d =>
      simp [showDialog, hg, hres] at heq
      exact heq.1.1.symm
  · intro path hres hne hnc st' r calls heq
    have hset := setDefaultPath_write st path hnc
    cases hg : getDialogOptions st "save" opts with
    | error e => simp [showDialog, hg] at heq
    | ok d =>
      simp [showDialog, hg, hres, hne, hset] at heq
      exact heq.1.1.symm
  · intro path hres hc st' r calls heq
    have hset := setDefaultPath_skip st path hc
    have hne : path ≠ "" := by
      intro h0
      rw [h0] at hc
      exact absurd (hc.2 ▸ hc.1) (by simp)
    cases hg : getDialogOptions st "save" opts with
    | error e => simp [showDialog, hg] at heq
    | ok d =>
      simp [showDialog, hg, hres, hne, hset] at heq
      exact heq.1.1.symm
  · intro f rest hres hnc st' r calls heq
    have hset := (setDefaultPath_multiple_cons st f rest).trans (setDefaultPath_write st f hnc)
    cases hg : getDialogOptions st "open" opts with
    | error e => simp [showDialog, hg] at heq
    | ok d =>
      simp [showDialog, hg, hres, hset] at heq
      exact heq.1.1.symm
  · intro f rest hres hc st' r calls heq
    have hset := (setDefaultPath_multiple_cons st f rest).trans (setDefaultPath_skip st f hc)
    cases hg : getDialogOptions st "open" opts with
    | error e => simp [showDialog, hg] at heq
    | ok d =>
      simp [showDialog, hg, hres, hset] at heq
      exact heq.1.1.symm

/-- Claim C3 counterexample: the claim as stated fails on the cache
short-circuit of `setDefaultPath`.  Starting from a fresh instance, a first
save to `/home/user/foo.bpmn` stores `/home/user` and caches it; a second,
non-cancelled save whose chosen path is exactly `/home/user` then returns
that truthy path, yet the persisted `defaultPath` stays `/home/user`
instead of becoming its directory portion `/home`. -/
theorem claim_C3_counterexample :
    (showDialog ⟨⟨none⟩, "/desktop", none⟩ ⟨0, none, some "/home/user/foo.bpmn"⟩ "save"
        ⟨some "foo.bpmn", some "bpmn", none⟩).1
      = Except.ok (⟨⟨some "/home/user"⟩, "/desktop", some "/home/user"⟩,
          ShowResult.savePath (some "/home/user/foo.bpmn"))
    ∧ (showDialog ⟨⟨some "/home/user"⟩, "/desktop", some "/home/user"⟩
          ⟨0, none, some "/home/user"⟩ "save" ⟨some "user", some "bpmn", none⟩).1
      = Except.ok (⟨⟨some "/home/user"⟩, "/desktop", some "/home/user"⟩,
          ShowResult.savePath (some "/home/user"))
    ∧ dirname "/home/user" = "/home"
    ∧ (⟨⟨some "/home/user"⟩, "/desktop", some "/home/user"⟩ : DialogState).config.defaultPath
      ≠ some (dirname "/home/user") :=
  ⟨rfl, rfl, rfl, by decide⟩

/-- Claim C3 witness: a fresh instance saving to `/home/user/foo.bpmn`
persists the directory portion `/home/user`, and a subsequent
`buildSpec('open')` is seeded with `defaultPath = "/home/user"`. -/
theorem claim_C3_witness :
    ((⟨⟨some "/home/user"⟩, "/desktop", some "/home/user"⟩ : DialogState)
      = { (⟨⟨none⟩, "/desktop", none⟩ : DialogState) with
          config := { (⟨⟨none⟩, "/desktop", none⟩ : DialogState).config with
                      defaultPath := some (dirname "/home/user/foo.bpmn") },
          defaultPathCache := some (dirname "/home/user/foo.bpmn") })
    ∧ getDialogOptions ⟨⟨some "/home/user"⟩, "/desktop", some "/home/user"⟩ "open"
        ⟨none, none, none⟩
      = Except.ok
          { title := "Open diagram"
            defaultPath := some "/home/user"
            properties := some ["openFile", "multiSelections"]
            filters := some (filterExtensions ["supported", "bpmn", "dmn", "cmmn", "all"]) } := by
  constructor
  · exact (claim_C3_defaultPath ⟨⟨none⟩, "/desktop", none⟩
      ⟨0, none, some "/home/user/foo.bpmn"⟩ "save"
      ⟨some "foo.bpmn", some "bpmn", none⟩).2.2.2.2.1 "/home/user/foo.bpmn" rfl
      (by decide) (by decide)
      ⟨⟨some "/home/user"⟩, "/desktop", some "/home/user"⟩
      (ShowResult.savePath (some "/home/user/foo.bpmn")) _ rfl
  · rfl

/-- Claim C10 (amended): on a non-empty array of filenames `setDefaultPath`
behaves exactly as on its first element alone — the other elements have no
influence on the store, the cache, or the returned value; when no write is
skipped the persisted `defaultPath` is the directory of that first element,
but the write (store and cache alike) is skipped, and the first element
returned, when the truthy cached `defaultPath` equals the first element. -/
theorem claim_C10_first_element (st : DialogState) (f : String) (rest : List String) :
    setDefaultPath st (Filenames.multiple (f :: rest)) = setDefaultPath st (Filenames.single f)
    ∧ (¬(st.defaultPathCache.getD "" ≠ "" ∧ st.defaultPathCache = some f) →
        setDefaultPath st (Filenames.multiple (f :: rest)) =
          some ({ st with config := { st.config with defaultPath := some (dirname f) },
                          defaultPathCache := some (dirname f) }, none))
    ∧ ((st.defaultPathCache.getD "" ≠ "" ∧ st.defaultPathCache = some f) →
        setDefaultPath st (Filenames.multiple (f :: rest)) = some (st, st.defaultPathCache)) := by
  refine ⟨rfl, fun h => ?_, fun h => ?_⟩
  · exact (setDefaultPath_multiple_cons st f rest).trans (setDefaultPath_write st f h)
  · exact (setDefaultPath_multiple_cons st f rest).trans (setDefaultPath_skip st f h)

/-- Claim C10 counterexample: with the cache (and store) at `/a/b`, a
multi-select result whose first element is exactly `/a/b` skips the write,
so the persisted `defaultPath` stays `/a/b` rather than the directory
`/a` of the first element. -/
theorem claim_C10_counterexample :
    setDefaultPath ⟨⟨some "/a/b"⟩, "/desktop", some "/a/b"⟩
        (Filenames.multiple ["/a/b", "/x/y.bpmn"])
      = some (⟨⟨some "/a/b"⟩, "/desktop", some "/a/b"⟩, some "/a/b")
    ∧ dirname "/a/b" = "/a"
    ∧ (⟨⟨some "/a/b"⟩, "/desktop", some "/a/b"⟩ : DialogState).config.defaultPath
      ≠ some (dirname "/a/b") :=
  ⟨rfl, rfl, by decide⟩

/-- Claim C10 witness: on a fresh instance, a two-element multi-select
result writes the dirname of the first element only. -/
theorem claim_C10_witness :
    setDefaultPath ⟨⟨none⟩, "/desktop", none⟩ (Filenames.multiple ["/a/b.bpmn", "/c/d.bpmn"])
      = some (⟨⟨some "/a"⟩, "/desktop", some "/a"⟩, none) := by
  have h := (claim_C10_first_element ⟨⟨none⟩, "/desktop", none⟩ "/a/b.bpmn"
    ["/c/d.bpmn"]).2.1 (by decide)
  exact h

end DialogBridge
